import Mathlib

/-!
Verification of the self-healing microservices fault-tolerance primitives:
shallow embeddings of `src/patterns/CircuitBreaker.js`,
`src/patterns/Bulkhead.js` and `src/patterns/AutoRecovery.js`, with proofs
of the specified behavioural properties.

Modelling conventions:
* Timestamps and durations (milliseconds) are naturals; `Date.now()` becomes
  an explicit `now : Nat` argument threaded to the functions that read the
  clock.
* The wrapped asynchronous operation is abstracted by its observable outcome
  (success or raise); timeouts surface as failed outcomes, exactly as the
  `catch` paths of the source observe them.
* Logging, event emission (`emit`), ISO timestamp strings and the bounded
  `stateHistory` list are pure observability side channels with no feedback
  into control flow; they are omitted from the state.  Metrics counters that
  the code branches on or that the properties mention are kept.
-/

namespace CircuitBreaker

/-- The three breaker states (`States` in `CircuitBreaker.js`). -/
inductive BState where
  | CLOSED
  | OPEN
  | HALF_OPEN
deriving DecidableEq, Repr

/-- Breaker configuration, immutable after construction. -/
structure Config where
  failureThreshold : Nat
  resetTimeout : Nat
deriving DecidableEq, Repr

/-- The metrics counters of `CircuitBreaker.js` that the behaviour reads or
that the properties mention. -/
structure Metrics where
  totalRequests : Nat
  totalFailures : Nat
  totalSuccesses : Nat
  totalCircuitBreakerOpens : Nat
deriving DecidableEq, Repr

/-- Mutable breaker state: `state`, `failureCount`, `successCount`,
`nextAttempt` and the metrics record. -/
structure CBState where
  state : BState
  failureCount : Nat
  successCount : Nat
  nextAttempt : Nat
  metrics : Metrics
deriving DecidableEq, Repr

/-- `setState(newState)`: assigns the state field.  (The bounded
`stateHistory` push and the `stateChanged` event are observability only.)
Note that it touches no counter. -/
def setState (s : CBState) (newState : BState) : CBState :=
  { s with state := newState }

/-- `onSuccess(responseTime)`: zero the failure counter, bump the success
counter and the success metric; a success observed in `HALF_OPEN` closes the
circuit. -/
def onSuccess (s : CBState) : CBState :=
  let s1 : CBState :=
    { s with failureCount := 0
             successCount := s.successCount + 1
             metrics := { s.metrics with
                            totalSuccesses := s.metrics.totalSuccesses + 1 } }
  if s1.state = BState.HALF_OPEN then setState s1 BState.CLOSED else s1

/-- `openCircuit()`: move to `OPEN`, schedule the next probe at
`now + resetTimeout`, count the open. -/
def openCircuit (cfg : Config) (now : Nat) (s : CBState) : CBState :=
  let s1 := setState s BState.OPEN
  { s1 with nextAttempt := now + cfg.resetTimeout
            metrics := { s1.metrics with
                           totalCircuitBreakerOpens :=
                             s1.metrics.totalCircuitBreakerOpens + 1 } }

/-- `onFailure(error, responseTime)`: bump the failure counter and metric;
open the circuit as soon as the counter reaches the threshold. -/
def onFailure (cfg : Config) (now : Nat) (s : CBState) : CBState :=
  let s1 : CBState :=
    { s with failureCount := s.failureCount + 1
             metrics := { s.metrics with
                            totalFailures := s.metrics.totalFailures + 1 } }
  if cfg.failureThreshold ≤ s1.failureCount then openCircuit cfg now s1 else s1

/-- The outcome `execute` reports to its caller. -/
inductive ExecOutcome where
  | ok
  | circuitOpenError
  | opError
deriving DecidableEq, Repr

/-- Result of one `execute` call: the post state, the reported outcome, and
whether the wrapped operation was actually invoked. -/
structure ExecResult where
  st : CBState
  outcome : ExecOutcome
  opInvoked : Bool
deriving DecidableEq, Repr

/-- `execute(fn, ...)`.  `totalRequests` is bumped up front; an `OPEN`
breaker before `nextAttempt` throws the fast-fail error, which the `catch`
block of `execute` itself routes through `onFailure` before re-raising; an
`OPEN` breaker at or past `nextAttempt` moves to `HALF_OPEN` and probes.
`opSucceeds` abstracts the outcome of the wrapped operation (a timeout
counts as a failed outcome). -/
def execute (cfg : Config) (now : Nat) (opSucceeds : Bool) (s : CBState) :
    ExecResult :=
  let s0 : CBState :=
    { s with metrics := { s.metrics with
                            totalRequests := s.metrics.totalRequests + 1 } }
  if s0.state = BState.OPEN ∧ now < s0.nextAttempt then
    { st := onFailure cfg now s0
      outcome := ExecOutcome.circuitOpenError
      opInvoked := false }
  else
    let s1 := if s0.state = BState.OPEN then setState s0 BState.HALF_OPEN else s0
    if opSucceeds then
      { st := onSuccess s1, outcome := ExecOutcome.ok, opInvoked := true }
    else
      { st := onFailure cfg now s1, outcome := ExecOutcome.opError
        opInvoked := true }

/-- `reset()`: zero both counters and force `CLOSED`. -/
def reset (s : CBState) : CBState :=
  setState { s with failureCount := 0, successCount := 0 } BState.CLOSED

end CircuitBreaker

namespace CircuitBreaker

/-- A concrete breaker state used by the closed-form check theorems. -/
def exState : CBState :=
  { state := BState.CLOSED
    failureCount := 0
    successCount := 1
    nextAttempt := 0
    metrics := { totalRequests := 1, totalFailures := 0
                 totalSuccesses := 1, totalCircuitBreakerOpens := 0 } }

end CircuitBreaker

/-- C1: an `OPEN` breaker before `nextAttempt` fails fast with the
circuit-open error and never invokes the wrapped operation. -/
theorem C1_open_fails_fast_without_invoking
    (cfg : CircuitBreaker.Config) (now : Nat) (opSucceeds : Bool)
    (s : CircuitBreaker.CBState)
    (hOpen : s.state = CircuitBreaker.BState.OPEN)
    (hEarly : now < s.nextAttempt) :
    (CircuitBreaker.execute cfg now opSucceeds s).outcome =
      CircuitBreaker.ExecOutcome.circuitOpenError ∧
    (CircuitBreaker.execute cfg now opSucceeds s).opInvoked = false := by
  simp [CircuitBreaker.execute, hOpen, hEarly]

/-- Witness for C1 at a concrete `OPEN` state and clock. -/
theorem C1_open_fails_fast_without_invoking_witness :
    (CircuitBreaker.setState CircuitBreaker.exState
        CircuitBreaker.BState.OPEN).state = CircuitBreaker.BState.OPEN ∧
    (CircuitBreaker.execute ⟨5, 1000⟩ 0 true
        { CircuitBreaker.exState with
            state := CircuitBreaker.BState.OPEN
            nextAttempt := 100 }).outcome =
      CircuitBreaker.ExecOutcome.circuitOpenError ∧
    (CircuitBreaker.execute ⟨5, 1000⟩ 0 true
        { CircuitBreaker.exState with
            state := CircuitBreaker.BState.OPEN
            nextAttempt := 100 }).opInvoked = false := by
  refine ⟨by decide, ?_⟩
  exact C1_open_fails_fast_without_invoking ⟨5, 1000⟩ 0 true
    { CircuitBreaker.exState with
        state := CircuitBreaker.BState.OPEN
        nextAttempt := 100 } (by decide) (by decide)

/-- C4: an invoked execution that fails increments the consecutive-failure
counter; as soon as the counter reaches `failureThreshold` the breaker is
`OPEN` with `nextAttempt = now + resetTimeout`; the original error is
re-raised to the caller after this bookkeeping. -/
theorem C4_failure_counts_and_opens_at_threshold
    (cfg : CircuitBreaker.Config) (now : Nat) (s : CircuitBreaker.CBState)
    (hNotFast : ¬ (s.state = CircuitBreaker.BState.OPEN ∧ now < s.nextAttempt)) :
    (CircuitBreaker.execute cfg now false s).st.failureCount =
      s.failureCount + 1 ∧
    (CircuitBreaker.execute cfg now false s).outcome =
      CircuitBreaker.ExecOutcome.opError ∧
    (cfg.failureThreshold ≤ s.failureCount + 1 →
      (CircuitBreaker.execute cfg now false s).st.state =
          CircuitBreaker.BState.OPEN ∧
      (CircuitBreaker.execute cfg now false s).st.nextAttempt =
          now + cfg.resetTimeout) := by
  simp only [CircuitBreaker.execute, CircuitBreaker.onFailure,
    CircuitBreaker.openCircuit, CircuitBreaker.setState]
  split_ifs with h1 h2 h3 h3 <;> simp_all

/-- Witness for C4: a second failure at threshold 2 opens the breaker. -/
theorem C4_failure_counts_and_opens_at_threshold_witness :
    (CircuitBreaker.execute ⟨2, 500⟩ 7 false
        { CircuitBreaker.exState with failureCount := 1 }).st.failureCount =
      { CircuitBreaker.exState with failureCount := 1 }.failureCount + 1 ∧
    (CircuitBreaker.execute ⟨2, 500⟩ 7 false
        { CircuitBreaker.exState with failureCount := 1 }).outcome =
      CircuitBreaker.ExecOutcome.opError ∧
    ((2 : Nat) ≤ 1 + 1 →
      (CircuitBreaker.execute ⟨2, 500⟩ 7 false
          { CircuitBreaker.exState with failureCount := 1 }).st.state =
        CircuitBreaker.BState.OPEN ∧
      (CircuitBreaker.execute ⟨2, 500⟩ 7 false
          { CircuitBreaker.exState with failureCount := 1 }).st.nextAttempt =
        7 + 500) :=
  C4_failure_counts_and_opens_at_threshold ⟨2, 500⟩ 7
    { CircuitBreaker.exState with failureCount := 1 } (by decide)

/-- C6: once `resetTimeout` has elapsed past an `OPEN` breaker
(`nextAttempt ≤ now`), the next `execute` call invokes the wrapped
operation (the `HALF_OPEN` probe — `onSuccess` yields `CLOSED` exactly
because the probing state is `HALF_OPEN`); if the probe succeeds the
breaker is `CLOSED` with failure counter `0`. -/
theorem C6_elapsed_open_probes_and_success_closes
    (cfg : CircuitBreaker.Config) (now : Nat) (s : CircuitBreaker.CBState)
    (hOpen : s.state = CircuitBreaker.BState.OPEN)
    (hElapsed : s.nextAttempt ≤ now) :
    (∀ b, (CircuitBreaker.execute cfg now b s).opInvoked = true) ∧
    (CircuitBreaker.execute cfg now true s).st.state =
      CircuitBreaker.BState.CLOSED ∧
    (CircuitBreaker.execute cfg now true s).st.failureCount = 0 := by
  have hNotEarly : ¬ now < s.nextAttempt := not_lt.mpr hElapsed
  simp [CircuitBreaker.execute, CircuitBreaker.onSuccess,
    CircuitBreaker.setState, hOpen, hNotEarly]

/-- Witness for C6 at a concrete elapsed `OPEN` state. -/
theorem C6_elapsed_open_probes_and_success_closes_witness :
    (∀ b, (CircuitBreaker.execute ⟨5, 1000⟩ 150 b
        { CircuitBreaker.exState with
            state := CircuitBreaker.BState.OPEN
            failureCount := 5
            nextAttempt := 100 }).opInvoked = true) ∧
    (CircuitBreaker.execute ⟨5, 1000⟩ 150 true
        { CircuitBreaker.exState with
            state := CircuitBreaker.BState.OPEN
            failureCount := 5
            nextAttempt := 100 }).st.state = CircuitBreaker.BState.CLOSED ∧
    (CircuitBreaker.execute ⟨5, 1000⟩ 150 true
        { CircuitBreaker.exState with
            state := CircuitBreaker.BState.OPEN
            failureCount := 5
            nextAttempt := 100 }).st.failureCount = 0 :=
  C6_elapsed_open_probes_and_success_closes ⟨5, 1000⟩ 150
    { CircuitBreaker.exState with
        state := CircuitBreaker.BState.OPEN
        failureCount := 5
        nextAttempt := 100 } (by decide) (by decide)

/-- Counterexample to C9: a genuine state change (a failure at threshold 1
drives `exState` from `CLOSED` to `OPEN`) after which the consecutive
success counter is still `1`, not `0`: `setState` never resets it. -/
theorem C9_counterexample_state_change_keeps_successCount :
    (CircuitBreaker.execute ⟨1, 1000⟩ 0 false CircuitBreaker.exState).st.state ≠
      CircuitBreaker.exState.state ∧
    (CircuitBreaker.execute ⟨1, 1000⟩ 0 false
        CircuitBreaker.exState).st.successCount ≠ 0 := by
  decide

/-- C9 amended: state changes leave the consecutive success counter
untouched (`setState` only assigns the state field); the counter is zeroed
only by the manual `reset`. -/
theorem C9_amended_setState_preserves_successCount
    (s : CircuitBreaker.CBState) (ns : CircuitBreaker.BState) :
    (CircuitBreaker.setState s ns).successCount = s.successCount ∧
    (CircuitBreaker.reset s).successCount = 0 :=
  ⟨rfl, rfl⟩

/-- C10: a fail-fast rejection while `OPEN` (before `nextAttempt`) is itself
accounted as a failure — `totalRequests`, `totalFailures` and the failure
counter all increase — and since the counter was already at or above the
threshold, `openCircuit` runs again and pushes `nextAttempt` out to the
rejected call's time plus `resetTimeout`. -/
theorem C10_rejected_call_postpones_probe
    (cfg : CircuitBreaker.Config) (now : Nat) (b : Bool)
    (s : CircuitBreaker.CBState)
    (hOpen : s.state = CircuitBreaker.BState.OPEN)
    (hEarly : now < s.nextAttempt)
    (hThresh : cfg.failureThreshold ≤ s.failureCount) :
    (CircuitBreaker.execute cfg now b s).outcome =
      CircuitBreaker.ExecOutcome.circuitOpenError ∧
    (CircuitBreaker.execute cfg now b s).opInvoked = false ∧
    (CircuitBreaker.execute cfg now b s).st.metrics.totalRequests =
      s.metrics.totalRequests + 1 ∧
    (CircuitBreaker.execute cfg now b s).st.metrics.totalFailures =
      s.metrics.totalFailures + 1 ∧
    (CircuitBreaker.execute cfg now b s).st.failureCount =
      s.failureCount + 1 ∧
    (CircuitBreaker.execute cfg now b s).st.state =
      CircuitBreaker.BState.OPEN ∧
    (CircuitBreaker.execute cfg now b s).st.nextAttempt =
      now + cfg.resetTimeout := by
  have hT : cfg.failureThreshold ≤ s.failureCount + 1 :=
    Nat.le_succ_of_le hThresh
  simp [CircuitBreaker.execute, CircuitBreaker.onFailure,
    CircuitBreaker.openCircuit, CircuitBreaker.setState, hOpen, hEarly, hT]

/-- Witness for C10 at a concrete saturated `OPEN` state. -/
theorem C10_rejected_call_postpones_probe_witness :
    (CircuitBreaker.execute ⟨3, 1000⟩ 40 true
        { CircuitBreaker.exState with
            state := CircuitBreaker.BState.OPEN
            failureCount := 3
            nextAttempt := 90 }).st.nextAttempt = 40 + 1000 ∧
    (CircuitBreaker.execute ⟨3, 1000⟩ 40 true
        { CircuitBreaker.exState with
            state := CircuitBreaker.BState.OPEN
            failureCount := 3
            nextAttempt := 90 }).st.failureCount = 3 + 1 ∧
    (CircuitBreaker.execute ⟨3, 1000⟩ 40 true
        { CircuitBreaker.exState with
            state := CircuitBreaker.BState.OPEN
            failureCount := 3
            nextAttempt := 90 }).opInvoked = false :=
  have h := C10_rejected_call_postpones_probe ⟨3, 1000⟩ 40 true
    { CircuitBreaker.exState with
        state := CircuitBreaker.BState.OPEN
        failureCount := 3
        nextAttempt := 90 } (by decide) (by decide) (by decide)
  ⟨h.2.2.2.2.2.2, h.2.2.2.2.1, h.2.1⟩

namespace AutoRecovery

/-- The four recovery states (`RecoveryStates` in `AutoRecovery.js`). -/
inductive RState where
  | HEALTHY
  | DEGRADED
  | RECOVERING
  | FAILED
deriving DecidableEq, Repr

/-- Recovery configuration, immutable after construction.  The numeric
options are milliseconds / counts and are naturals in every configuration
the repository constructs. -/
structure ARConfig where
  maxRetries : Nat
  initialDelay : Nat
  maxDelay : Nat
  backoffMultiplier : Nat
  failureThreshold : Nat
  recoveryThreshold : Nat
deriving DecidableEq, Repr

/-- Mutable recovery state: `state`, the counters, and the `isRecovering`
in-flight guard. -/
structure ARState where
  state : RState
  failureCount : Nat
  successCount : Nat
  retryCount : Nat
  isRecovering : Bool
deriving DecidableEq, Repr

/-- `setState(newState)` of `AutoRecovery.js`: assigns the state field
(the bounded history push and the `stateChanged` event are observability
only). -/
def setStateR (s : ARState) (ns : RState) : ARState :=
  { s with state := ns }

/-- `onSuccess()`: bump the success counter, zero the failure and retry
counters; when not `HEALTHY` and the success counter has reached
`recoveryThreshold`, transition to `HEALTHY` (`endOutage` is metrics
only). -/
def onSuccess (cfg : ARConfig) (s : ARState) : ARState :=
  let s1 : ARState :=
    { s with successCount := s.successCount + 1
             failureCount := 0
             retryCount := 0 }
  if s1.state ≠ RState.HEALTHY ∧ cfg.recoveryThreshold ≤ s1.successCount then
    setStateR s1 RState.HEALTHY
  else s1

/-- The success path of `performHealthCheck()`: after the injected health
check resolves, `onSuccess` runs only under the guard
`if (this.state !== RecoveryStates.HEALTHY)` — the `healthCheckSuccesses`
metric and `lastHealthCheck` bookkeeping carry no control flow and are
omitted. -/
def performHealthCheckSuccess (cfg : ARConfig) (s : ARState) : ARState :=
  if s.state ≠ RState.HEALTHY then onSuccess cfg s else s

/-- The clamped exponential backoff inside `calculateDelay(attempt)`:
`min(initialDelay * backoffMultiplier^(attempt-1), maxDelay)`. -/
def nominalDelay (cfg : ARConfig) (attempt : Nat) : Nat :=
  min (cfg.initialDelay * cfg.backoffMultiplier ^ (attempt - 1)) cfg.maxDelay

/-- `calculateDelay(attempt)`: the clamped delay plus up to 10% random
jitter, floored to an integer (`Math.floor(delay + jitter)` with
`jitter = delay * 0.1 * Math.random()`); `rand` is the draw of
`Math.random()`, a rational in `[0, 1)`. -/
def calculateDelay (cfg : ARConfig) (rand : ℚ) (attempt : Nat) : ℤ :=
  let d : ℚ := (nominalDelay cfg attempt : ℚ)
  Int.floor (d + d * (1 / 10) * rand)

/-- Observable outcome of one `executeWithRecovery` call: how many times
the wrapped operation was invoked, the total backoff wait, and whether a
success was returned (otherwise the last error propagates). -/
structure RetryOutcome where
  invocations : Nat
  totalWait : ℤ
  succeeded : Bool
deriving DecidableEq, Repr

/-- The `while (attempt <= this.maxRetries)` loop of
`executeWithRecovery`.  `f i` is the outcome of the `i`-th invocation of
the wrapped operation (0-indexed), `rand i` the `Math.random()` draw used
for the wait after a failed attempt `i`.  The loop runs at most
`maxRetries + 1` iterations with `attempt` increasing by one per failure,
so the fuel argument (which equals `maxRetries + 1 - attempt` at every
call) encodes the loop bound structurally. -/
def retryLoop (cfg : ARConfig) (rand : Nat → ℚ) (f : Nat → Bool) :
    Nat → Nat → RetryOutcome
  | 0, attempt => { invocations := attempt, totalWait := 0, succeeded := false }
  | fuel + 1, attempt =>
      if f attempt then
        { invocations := attempt + 1, totalWait := 0, succeeded := true }
      else
        let a := attempt + 1
        let w : ℤ := if a ≤ cfg.maxRetries then calculateDelay cfg (rand a) a else 0
        let rest := retryLoop cfg rand f fuel a
        { invocations := rest.invocations
          totalWait := w + rest.totalWait
          succeeded := rest.succeeded }

/-- `executeWithRecovery(fn, ...)`, observed through invocation count,
accumulated backoff wait and final outcome. -/
def executeWithRecovery (cfg : ARConfig) (rand : Nat → ℚ) (f : Nat → Bool) :
    RetryOutcome :=
  retryLoop cfg rand f (cfg.maxRetries + 1) 0

/-- The `for (const [strategyName, strategy] of this.strategies)` walk of
`attemptRecovery`: each strategy acts on the instance and either completes
(`true`) or raises (`false`, caught and logged); the walk stops at the
first completion.  Returns the resulting state and how many strategies
were invoked. -/
def runStrategies : List (ARState → ARState × Bool) → ARState → ARState × Nat
  | [], s => (s, 0)
  | f :: rest, s =>
      let r := f s
      if r.2 then (r.1, 1)
      else
        let rr := runStrategies rest r.1
        (rr.1, rr.2 + 1)

/-- `attemptRecovery(error)`: no-op when a pass is already in flight;
otherwise set the guard, enter `RECOVERING`, walk the strategy registry,
and clear the guard in the `finally` block. -/
def attemptRecovery (strategies : List (ARState → ARState × Bool))
    (s : ARState) : ARState × Nat :=
  if s.isRecovering then (s, 0)
  else
    let s1 := setStateR { s with isRecovering := true } RState.RECOVERING
    let r := runStrategies strategies s1
    ({ r.1 with isRecovering := false }, r.2)

/-- A constant-outcome strategy: completes or raises according to `b`,
leaving the instance state unchanged. -/
def constStrategy (b : Bool) : ARState → ARState × Bool :=
  fun st => (st, b)

/-- Concrete recovery configuration used by the check theorems. -/
def cfgEx : ARConfig :=
  { maxRetries := 2, initialDelay := 1000, maxDelay := 1000
    backoffMultiplier := 2, failureThreshold := 3, recoveryThreshold := 2 }

/-- A concrete `HEALTHY` recovery state used by the check theorems. -/
def healthyEx : ARState :=
  { state := RState.HEALTHY, failureCount := 0, successCount := 0
    retryCount := 0, isRecovering := false }

end AutoRecovery

namespace AutoRecovery

/-- Jitter only adds: with a nonnegative random draw, the computed delay is
at least the clamped nominal delay. -/
lemma nominalDelay_le_calculateDelay (cfg : ARConfig) (rand : ℚ)
    (attempt : Nat) (hr : 0 ≤ rand) :
    (nominalDelay cfg attempt : ℤ) ≤ calculateDelay cfg rand attempt := by
  unfold calculateDelay
  rw [Int.le_floor]
  push_cast
  have hd : (0 : ℚ) ≤ (nominalDelay cfg attempt : ℚ) := by positivity
  nlinarith

/-- Evaluation of the retry loop against an operation that fails on every
invocation before the `k`-th and succeeds from the `k`-th on: starting from
attempt `a ≤ k` with enough fuel to reach `k`, the loop performs
invocations `a, a+1, …, k`, accumulating the waits scheduled after the
failed attempts. -/
lemma retryLoop_first_success (cfg : ARConfig) (rand : Nat → ℚ) (k : Nat) :
    ∀ fuel a, a ≤ k → k < a + fuel →
      retryLoop cfg rand (fun i => decide (k ≤ i)) fuel a =
        { invocations := k + 1
          totalWait := ∑ i in Finset.Ico (a + 1) (k + 1),
            (if i ≤ cfg.maxRetries then calculateDelay cfg (rand i) i else 0)
          succeeded := true } := by
  intro fuel
  induction fuel with
  | zero => intro a ha hlt; omega
  | succ n ih =>
      intro a ha hlt
      by_cases hak : a = k
      · subst hak
        simp [retryLoop]
      · have halt : a < k := lt_of_le_of_ne ha hak
        have hka : ¬ k ≤ a := not_le.mpr halt
        rw [retryLoop]
        simp only [hka, decide_eq_true_eq, if_false, decide_eq_false_iff_not,
          not_le]
        rw [ih (a + 1) (by omega) (by omega)]
        have hsum :
            ∑ i in Finset.Ico (a + 1) (k + 1),
                (if i ≤ cfg.maxRetries then calculateDelay cfg (rand i) i
                 else 0) =
              (if a + 1 ≤ cfg.maxRetries then calculateDelay cfg (rand (a + 1)) (a + 1)
               else 0) +
              ∑ i in Finset.Ico (a + 1 + 1) (k + 1),
                (if i ≤ cfg.maxRetries then calculateDelay cfg (rand i) i
                 else 0) :=
          Finset.sum_eq_sum_Ico_succ_bot (by omega) _
        simp [hsum]

end AutoRecovery

namespace AutoRecovery

/-- Walking a registry of constant-outcome strategies leaves the instance
state unchanged and invokes one strategy per raising outcome plus the first
completing one — all of them when every strategy raises. -/
lemma runStrategies_const (outcomes : List Bool) (s : ARState) :
    runStrategies (outcomes.map constStrategy) s =
      (s, if outcomes.any (fun b => b) then
            (outcomes.takeWhile (fun b => !b)).length + 1
          else outcomes.length) := by
  induction outcomes generalizing s with
  | nil => simp [runStrategies]
  | cons b rest ih =>
      cases b with
      | true => simp [runStrategies, constStrategy]
      | false => simp [runStrategies, constStrategy, ih]; split_ifs <;> simp

end AutoRecovery

/-- C3 (amended): with `maxRetries = N`, an operation failing exactly
`k ≤ N` times then succeeding is invoked exactly `k + 1` times and the
success is returned; the total backoff wait is at least
`Σ_{i=1..k} min(initialDelay · backoffMultiplier^(i-1), maxDelay)` — the
clamped sum; jitter (a nonnegative random draw) only ever adds time. -/
theorem C3_amended_retry_count_and_clamped_wait
    (cfg : AutoRecovery.ARConfig) (rand : Nat → ℚ) (k : Nat)
    (hk : k ≤ cfg.maxRetries) (hr : ∀ i, 0 ≤ rand i) :
    (AutoRecovery.executeWithRecovery cfg rand
        (fun i => decide (k ≤ i))).invocations = k + 1 ∧
    (AutoRecovery.executeWithRecovery cfg rand
        (fun i => decide (k ≤ i))).succeeded = true ∧
    (∑ i in Finset.Ico 1 (k + 1), (AutoRecovery.nominalDelay cfg i : ℤ)) ≤
      (AutoRecovery.executeWithRecovery cfg rand
          (fun i => decide (k ≤ i))).totalWait := by
  have hrun := AutoRecovery.retryLoop_first_success cfg rand k
    (cfg.maxRetries + 1) 0 (Nat.zero_le k) (by omega)
  unfold AutoRecovery.executeWithRecovery
  rw [hrun]
  refine ⟨rfl, rfl, ?_⟩
  refine Finset.sum_le_sum ?_
  intro i hi
  rw [Finset.mem_Ico] at hi
  have hile : i ≤ cfg.maxRetries := by omega
  rw [if_pos hile]
  exact AutoRecovery.nominalDelay_le_calculateDelay cfg (rand i) i (hr i)

/-- Witness for the amended C3: `cfgEx` (`maxRetries = 2`), two failures
then success, zero jitter. -/
theorem C3_amended_retry_count_and_clamped_wait_witness :
    (AutoRecovery.executeWithRecovery AutoRecovery.cfgEx (fun _ => 0)
        (fun i => decide (2 ≤ i))).invocations = 2 + 1 ∧
    (AutoRecovery.executeWithRecovery AutoRecovery.cfgEx (fun _ => 0)
        (fun i => decide (2 ≤ i))).succeeded = true ∧
    (∑ i in Finset.Ico 1 (2 + 1),
        (AutoRecovery.nominalDelay AutoRecovery.cfgEx i : ℤ)) ≤
      (AutoRecovery.executeWithRecovery AutoRecovery.cfgEx (fun _ => 0)
          (fun i => decide (2 ≤ i))).totalWait :=
  C3_amended_retry_count_and_clamped_wait AutoRecovery.cfgEx (fun _ => 0) 2
    (by decide) (fun _ => le_refl 0)

/-- Counterexample to C3 as stated: with `cfgEx`
(`initialDelay = 1000`, `backoffMultiplier = 2`, `maxDelay = 1000`,
`maxRetries = 2`), two failures then success, and zero jitter, the total
wait is `2000`, strictly below the claimed unclamped bound
`Σ_{i=1..2} 1000·2^(i-1) = 3000`: the claim ignores the `maxDelay`
clamp. -/
theorem C3_counterexample_maxDelay_clamp :
    (AutoRecovery.executeWithRecovery AutoRecovery.cfgEx (fun _ => 0)
        (fun i => decide (2 ≤ i))).succeeded = true ∧
    (AutoRecovery.executeWithRecovery AutoRecovery.cfgEx (fun _ => 0)
        (fun i => decide (2 ≤ i))).invocations = 2 + 1 ∧
    (AutoRecovery.executeWithRecovery AutoRecovery.cfgEx (fun _ => 0)
        (fun i => decide (2 ≤ i))).totalWait <
      ((1000 * 2 ^ 0 + 1000 * 2 ^ 1 : ℕ) : ℤ) := by
  refine ⟨by decide, by decide, ?_⟩
  norm_num [AutoRecovery.executeWithRecovery, AutoRecovery.retryLoop,
    AutoRecovery.calculateDelay, AutoRecovery.nominalDelay,
    AutoRecovery.cfgEx]

/-- C5: `attemptRecovery` is a no-op while a pass is in flight; otherwise
it enters `RECOVERING` and walks the strategies in registration order,
stopping at the first that completes and continuing past those that raise
(invoking `first-success-index + 1` of them, all of them when every
strategy raises), and the `isRecovering` guard is cleared on every exit
path. -/
theorem C5_attemptRecovery_guard_and_strategy_walk
    (strategies : List (AutoRecovery.ARState →
      AutoRecovery.ARState × Bool))
    (outcomes : List Bool) (s : AutoRecovery.ARState) :
    (s.isRecovering = true →
      AutoRecovery.attemptRecovery strategies s = (s, 0)) ∧
    (s.isRecovering = false →
      (AutoRecovery.attemptRecovery strategies s).1.isRecovering = false) ∧
    (s.isRecovering = false →
      (AutoRecovery.attemptRecovery
          (outcomes.map AutoRecovery.constStrategy) s).1.state =
        AutoRecovery.RState.RECOVERING ∧
      (AutoRecovery.attemptRecovery
          (outcomes.map AutoRecovery.constStrategy) s).2 =
        (if outcomes.any (fun b => b) then
           (outcomes.takeWhile (fun b => !b)).length + 1
         else outcomes.length)) := by
  refine ⟨fun hrec => ?_, fun hrec => ?_, fun hrec => ?_⟩
  · simp [AutoRecovery.attemptRecovery, hrec]
  · unfold AutoRecovery.attemptRecovery
    simp only [hrec, Bool.false_eq_true, if_false]
  · unfold AutoRecovery.attemptRecovery
    simp only [hrec, Bool.false_eq_true, if_false]
    rw [AutoRecovery.runStrategies_const]
    constructor
    · rfl
    · rfl

/-- Witness for C5: a strategy list raise/complete/complete invokes exactly
two strategies from an idle instance, leaves the guard cleared and the
state `RECOVERING`; a busy instance is untouched. -/
theorem C5_attemptRecovery_guard_and_strategy_walk_witness :
    (AutoRecovery.attemptRecovery
        ([false, true, true].map AutoRecovery.constStrategy)
        { AutoRecovery.healthyEx with isRecovering := true } =
      ({ AutoRecovery.healthyEx with isRecovering := true }, 0)) ∧
    (AutoRecovery.attemptRecovery
        ([false, true, true].map AutoRecovery.constStrategy)
        AutoRecovery.healthyEx).1.isRecovering = false ∧
    (AutoRecovery.attemptRecovery
        ([false, true, true].map AutoRecovery.constStrategy)
        AutoRecovery.healthyEx).1.state =
      AutoRecovery.RState.RECOVERING ∧
    (AutoRecovery.attemptRecovery
        ([false, true, true].map AutoRecovery.constStrategy)
        AutoRecovery.healthyEx).2 =
      (if [false, true, true].any (fun b => b) then
         ([false, true, true].takeWhile (fun b => !b)).length + 1
       else ([false, true, true] : List Bool).length) :=
  have hbusy := C5_attemptRecovery_guard_and_strategy_walk
    ([false, true, true].map AutoRecovery.constStrategy) [false, true, true]
    { AutoRecovery.healthyEx with isRecovering := true }
  have hidle := C5_attemptRecovery_guard_and_strategy_walk
    ([false, true, true].map AutoRecovery.constStrategy) [false, true, true]
    AutoRecovery.healthyEx
  ⟨hbusy.1 rfl, hidle.2.1 rfl, (hidle.2.2 rfl).1, (hidle.2.2 rfl).2⟩

/-- C8 (amended): a successful health check has the same effect as the
success path of `executeWithRecovery` (its `onSuccess`: reset failures,
bump the success counter, go `HEALTHY` at `recoveryThreshold`) only when
the state is not `HEALTHY`; in the `HEALTHY` state the guard in
`performHealthCheck` skips `onSuccess` and the counters and state are left
unchanged. -/
theorem C8_amended_healthCheck_success_guarded
    (cfg : AutoRecovery.ARConfig) (s : AutoRecovery.ARState) :
    (s.state ≠ AutoRecovery.RState.HEALTHY →
      AutoRecovery.performHealthCheckSuccess cfg s =
        AutoRecovery.onSuccess cfg s) ∧
    (s.state = AutoRecovery.RState.HEALTHY →
      AutoRecovery.performHealthCheckSuccess cfg s = s) := by
  constructor
  · intro h
    simp [AutoRecovery.performHealthCheckSuccess, h]
  · intro h
    simp [AutoRecovery.performHealthCheckSuccess, h]

/-- Witness for the amended C8: a `DEGRADED` instance one success short of
`recoveryThreshold` is treated exactly as by `onSuccess`; a `HEALTHY`
instance is untouched. -/
theorem C8_amended_healthCheck_success_guarded_witness :
    AutoRecovery.performHealthCheckSuccess AutoRecovery.cfgEx
        { AutoRecovery.healthyEx with
            state := AutoRecovery.RState.DEGRADED, successCount := 1 } =
      AutoRecovery.onSuccess AutoRecovery.cfgEx
        { AutoRecovery.healthyEx with
            state := AutoRecovery.RState.DEGRADED, successCount := 1 } ∧
    AutoRecovery.performHealthCheckSuccess AutoRecovery.cfgEx
        AutoRecovery.healthyEx = AutoRecovery.healthyEx :=
  ⟨(C8_amended_healthCheck_success_guarded AutoRecovery.cfgEx
      { AutoRecovery.healthyEx with
          state := AutoRecovery.RState.DEGRADED, successCount := 1 }).1
    (by decide),
   (C8_amended_healthCheck_success_guarded AutoRecovery.cfgEx
      AutoRecovery.healthyEx).2 rfl⟩

/-- Counterexample to C8 as stated: on a `HEALTHY` instance a successful
health check does not increment the success counter (it skips `onSuccess`
entirely), so it does not have "exactly the same effect" as a successful
`executeWithRecovery` call. -/
theorem C8_counterexample_healthy_skips_onSuccess :
    (AutoRecovery.performHealthCheckSuccess AutoRecovery.cfgEx
        AutoRecovery.healthyEx).successCount = 0 ∧
    (AutoRecovery.onSuccess AutoRecovery.cfgEx
        AutoRecovery.healthyEx).successCount = 1 := by
  decide

namespace Bulkhead

/-- Task statuses (`TaskStatus` in `Bulkhead.js`). -/
inductive TaskStatus where
  | pending
  | running
  | completed
  | failed
  | timeout
  | rejected
deriving DecidableEq, Repr

/-- A bulkhead task (`createTask`): identity, status, timestamps, and the
two timers — `hasQueueTimer` models an armed `queueTimeoutId`
(`queueTimeout` clock), `hasExecTimer` an armed execution-timeout clock
(the `setTimeout` in `executeWithTimeout`). -/
structure Task where
  tid : Nat
  status : TaskStatus
  createdAt : Nat
  startedAt : Option Nat
  hasExecTimer : Bool
  hasQueueTimer : Bool
deriving DecidableEq, Repr

/-- Bulkhead configuration, immutable after construction. -/
structure Config where
  maxConcurrent : Nat
  maxQueueSize : Nat
deriving DecidableEq, Repr

/-- Bulkhead bookkeeping: `runningTasks` (the map, as a list), `taskQueue`
(front = head of the FIFO), `currentConcurrency`, and a fresh-id counter
standing in for `generateTaskId`. -/
structure BHState where
  runningTasks : List Task
  taskQueue : List Task
  currentConcurrency : Nat
  nextId : Nat
deriving DecidableEq, Repr

/-- The state of a freshly constructed bulkhead. -/
def initState : BHState :=
  { runningTasks := [], taskQueue := [], currentConcurrency := 0, nextId := 0 }

/-- `createTask(fn, args)`: a `PENDING` task with no start time and no
timers armed. -/
def createTask (tid now : Nat) : Task :=
  { tid := tid, status := TaskStatus.pending, createdAt := now
    startedAt := none, hasExecTimer := false, hasQueueTimer := false }

/-- `executeTask(task)` up to the point the wrapped call is in flight:
bump the concurrency, mark the task `RUNNING` with `startedAt = now`, put
it in `runningTasks`, and arm the execution-timeout clock
(`executeWithTimeout`'s `setTimeout`). -/
def executeTask (now : Nat) (t : Task) (s : BHState) : BHState :=
  { s with
      currentConcurrency := s.currentConcurrency + 1
      runningTasks :=
        { t with status := TaskStatus.running, startedAt := some now
                 hasExecTimer := true } :: s.runningTasks }

/-- How `execute` disposes of one submission. -/
inductive SubmitResult where
  | startedNow
  | queued
  | rejectedQueueFull
deriving DecidableEq, Repr

/-- `execute(fn, ...)`: run immediately while below `maxConcurrent`;
otherwise `queueTask` either rejects up front when the queue is full — the
task is never pushed — or appends the task at the tail with the queue
timer armed. -/
def submit (cfg : Config) (now : Nat) (s : BHState) : BHState × SubmitResult :=
  let t := createTask s.nextId now
  let s0 := { s with nextId := s.nextId + 1 }
  if s0.currentConcurrency < cfg.maxConcurrent then
    (executeTask now t s0, SubmitResult.startedNow)
  else if cfg.maxQueueSize ≤ s0.taskQueue.length then
    (s0, SubmitResult.rejectedQueueFull)
  else
    ({ s0 with
         taskQueue := s0.taskQueue ++ [{ t with hasQueueTimer := true }] },
     SubmitResult.queued)

/-- `processQueue()`: when the queue is nonempty and a slot is free, shift
the head, clear its queue timer (`clearTimeout(task.queueTimeoutId)`) and
start it via `executeTask`. -/
def processQueue (cfg : Config) (now : Nat) (s : BHState) : BHState :=
  match s.taskQueue with
  | [] => s
  | t :: rest =>
      if s.currentConcurrency < cfg.maxConcurrent then
        executeTask now { t with hasQueueTimer := false }
          { s with taskQueue := rest }
      else s

/-- The `finally` block of `executeTask`, run when the wrapped call
settles (success, failure or timeout): drop the task from `runningTasks`,
decrement the concurrency, then `processQueue`. -/
def finishTask (cfg : Config) (now tid : Nat) (s : BHState) : BHState :=
  let s1 :=
    { s with
        runningTasks := s.runningTasks.eraseP (fun t => t.tid == tid)
        currentConcurrency := s.currentConcurrency - 1 }
  processQueue cfg now s1

/-- `removeFromQueue(task)` as called when a queue timeout fires: drop the
matching entry, if still present. -/
def removeFromQueue (tid : Nat) (s : BHState) : BHState :=
  { s with taskQueue := s.taskQueue.eraseP (fun t => t.tid == tid) }

/-- `clearQueue()`: reject and drop every queued task. -/
def clearQueue (s : BHState) : BHState :=
  { s with taskQueue := [] }

/-- The externally triggered events a bulkhead instance serialises:
a submission, the settling of a running task, a queue-timeout firing, and
an emergency queue clear. -/
inductive Event where
  | submit (now : Nat)
  | finish (now tid : Nat)
  | queueTimeout (tid : Nat)
  | clear
deriving DecidableEq, Repr

/-- One serialised event step.  A `finish` can only settle a task that is
actually running (the `finally` block belongs to a started task). -/
def step (cfg : Config) (s : BHState) : Event → BHState
  | Event.submit now => (submit cfg now s).1
  | Event.finish now tid =>
      if s.runningTasks.any (fun t => t.tid == tid) then
        finishTask cfg now tid s
      else s
  | Event.queueTimeout tid => removeFromQueue tid s
  | Event.clear => clearQueue s

/-- The state after a serialised event history from construction. -/
def run (cfg : Config) (events : List Event) : BHState :=
  events.foldl (step cfg) initState

/-- What holds of every entry of `taskQueue`: still `PENDING`, never
started, execution-timeout clock not armed, queue-timeout clock armed. -/
def QueuedOK (t : Task) : Prop :=
  t.status = TaskStatus.pending ∧ t.startedAt = none ∧
    t.hasExecTimer = false ∧ t.hasQueueTimer = true

/-- What holds of every entry of `runningTasks`: `RUNNING`, started, with
the execution-timeout clock armed. -/
def RunningOK (t : Task) : Prop :=
  t.status = TaskStatus.running ∧ t.hasExecTimer = true ∧ t.startedAt ≠ none

/-- The bulkhead invariant: the concurrency counter mirrors the running
set, both capacity bounds hold, and every queued/running task is in its
proper phase with the right clocks armed. -/
def Inv (cfg : Config) (s : BHState) : Prop :=
  s.currentConcurrency = s.runningTasks.length ∧
  s.runningTasks.length ≤ cfg.maxConcurrent ∧
  s.taskQueue.length ≤ cfg.maxQueueSize ∧
  (∀ t ∈ s.taskQueue, QueuedOK t) ∧
  (∀ t ∈ s.runningTasks, RunningOK t)

lemma Inv_init (cfg : Config) : Inv cfg initState := by
  refine ⟨rfl, by simp [initState], by simp [initState], ?_, ?_⟩ <;>
    simp [initState]

lemma Inv_executeTask (cfg : Config) (now : Nat) (t : Task) (s : BHState)
    (hInv : Inv cfg s) (hroom : s.currentConcurrency < cfg.maxConcurrent) :
    Inv cfg (executeTask now t s) := by
  obtain ⟨hc, hrun, hq, hqok, hrok⟩ := hInv
  refine ⟨?_, ?_, ?_, ?_, ?_⟩
  · simp [executeTask, hc]
  · simp only [executeTask, List.length_cons]
    omega
  · exact hq
  · exact hqok
  · intro u hu
    simp only [executeTask, List.mem_cons] at hu
    rcases hu with hu | hu
    · subst hu
      exact ⟨rfl, rfl, by simp⟩
    · exact hrok u hu

lemma Inv_submit (cfg : Config) (now : Nat) (s : BHState)
    (hInv : Inv cfg s) : Inv cfg (submit cfg now s).1 := by
  obtain ⟨hc, hrun, hq, hqok, hrok⟩ := hInv
  unfold submit
  dsimp only
  split_ifs with h1 h2
  · exact Inv_executeTask cfg now _ _ ⟨hc, hrun, hq, hqok, hrok⟩ h1
  · exact ⟨hc, hrun, hq, hqok, hrok⟩
  · refine ⟨hc, hrun, ?_, ?_, hrok⟩
    · simp only [List.length_append, List.length_singleton]
      omega
    · intro u hu
      simp only [List.mem_append, List.mem_singleton] at hu
      rcases hu with hu | hu
      · exact hqok u hu
      · subst hu
        exact ⟨rfl, rfl, rfl, rfl⟩

lemma Inv_processQueue (cfg : Config) (now : Nat) (s : BHState)
    (hInv : Inv cfg s) : Inv cfg (processQueue cfg now s) := by
  obtain ⟨hc, hrun, hq, hqok, hrok⟩ := hInv
  unfold processQueue
  split
  · exact ⟨hc, hrun, hq, hqok, hrok⟩
  · rename_i t rest heq
    split_ifs with hroom
    · have hq' : rest.length ≤ cfg.maxQueueSize := by
        have : (t :: rest).length ≤ cfg.maxQueueSize := heq ▸ hq
        simp only [List.length_cons] at this
        omega
      refine Inv_executeTask cfg now _ _ ⟨hc, hrun, hq', ?_, hrok⟩ hroom
      intro u hu
      exact hqok u (heq ▸ List.mem_cons_of_mem t hu)
    · exact ⟨hc, hrun, hq, hqok, hrok⟩

lemma Inv_finishTask (cfg : Config) (now tid : Nat) (s : BHState)
    (hInv : Inv cfg s)
    (hmem : s.runningTasks.any (fun t => t.tid == tid) = true) :
    Inv cfg (finishTask cfg now tid s) := by
  obtain ⟨hc, hrun, hq, hqok, hrok⟩ := hInv
  have hex : ∃ t ∈ s.runningTasks, (t.tid == tid) = true := by
    simpa [List.any_eq_true] using hmem
  obtain ⟨t0, ht0mem, ht0⟩ := hex
  have hlen :
      (s.runningTasks.eraseP (fun t => t.tid == tid)).length + 1 =
        s.runningTasks.length :=
    List.length_eraseP_add_one ht0mem ht0
  apply Inv_processQueue
  refine ⟨?_, ?_, hq, hqok, ?_⟩
  · simp only [finishTask]
    omega
  · simp only [finishTask]
    omega
  · intro u hu
    exact hrok u (List.mem_of_mem_eraseP hu)

lemma Inv_step (cfg : Config) (s : BHState) (e : Event) (hInv : Inv cfg s) :
    Inv cfg (step cfg s e) := by
  obtain ⟨hc, hrun, hq, hqok, hrok⟩ := hInv
  cases e with
  | submit now => exact Inv_submit cfg now s ⟨hc, hrun, hq, hqok, hrok⟩
  | finish now tid =>
      simp only [step]
      split_ifs with hmem
      · exact Inv_finishTask cfg now tid s ⟨hc, hrun, hq, hqok, hrok⟩ hmem
      · exact ⟨hc, hrun, hq, hqok, hrok⟩
  | queueTimeout tid =>
      refine ⟨hc, hrun, ?_, ?_, hrok⟩
      · calc (s.taskQueue.eraseP (fun t => t.tid == tid)).length
            ≤ s.taskQueue.length := (List.eraseP_sublist _).length_le
          _ ≤ cfg.maxQueueSize := hq
      · intro u hu
        exact hqok u (List.mem_of_mem_eraseP hu)
  | clear =>
      refine ⟨hc, hrun, by simp [step, clearQueue], ?_, hrok⟩
      intro u hu
      simp [step, clearQueue] at hu

/-- Every state reachable from construction satisfies the invariant. -/
lemma Inv_run (cfg : Config) (events : List Event) :
    Inv cfg (run cfg events) := by
  suffices h : ∀ (evs : List Event) (s : BHState), Inv cfg s →
      Inv cfg (evs.foldl (step cfg) s) by
    exact h events initState (Inv_init cfg)
  intro evs
  induction evs with
  | nil => intro s hs; exact hs
  | cons e rest ih =>
      intro s hs
      exact ih (step cfg s e) (Inv_step cfg s e hs)

end Bulkhead

namespace Bulkhead

/-- Concrete configuration for the check theorems: one slot, one queue
place. -/
def cfgEx : Config := { maxConcurrent := 1, maxQueueSize := 1 }

/-- Two submissions at times 0 and 1 fill the slot and the queue place. -/
def evsEx : List Event := [Event.submit 0, Event.submit 1]

/-- The task sitting in the queue after `evsEx`. -/
def queuedEx : Task :=
  { tid := 1, status := TaskStatus.pending, createdAt := 1
    startedAt := none, hasExecTimer := false, hasQueueTimer := true }

end Bulkhead

/-- C2: in every reachable bulkhead state the running set is bounded by
`maxConcurrent` and the queue by `maxQueueSize`; a submission arriving with
the running set at `maxConcurrent` and the queue at `maxQueueSize` is
rejected up front with the queue-full error and the task is never enqueued
(running set and queue are untouched). -/
theorem C2_bulkhead_bounds_and_queue_full_rejection
    (cfg : Bulkhead.Config) (events : List Bulkhead.Event) :
    (Bulkhead.run cfg events).runningTasks.length ≤ cfg.maxConcurrent ∧
    (Bulkhead.run cfg events).taskQueue.length ≤ cfg.maxQueueSize ∧
    (∀ now,
      (Bulkhead.run cfg events).runningTasks.length = cfg.maxConcurrent →
      (Bulkhead.run cfg events).taskQueue.length = cfg.maxQueueSize →
      (Bulkhead.submit cfg now (Bulkhead.run cfg events)).2 =
          Bulkhead.SubmitResult.rejectedQueueFull ∧
      (Bulkhead.submit cfg now (Bulkhead.run cfg events)).1.taskQueue =
          (Bulkhead.run cfg events).taskQueue ∧
      (Bulkhead.submit cfg now (Bulkhead.run cfg events)).1.runningTasks =
          (Bulkhead.run cfg events).runningTasks) := by
  obtain ⟨hc, hrun, hq, hqok, hrok⟩ := Bulkhead.Inv_run cfg events
  refine ⟨hrun, hq, ?_⟩
  intro now hfullRun hfullQ
  have hnoSlot : ¬ (Bulkhead.run cfg events).currentConcurrency <
      cfg.maxConcurrent := by omega
  have hfull : cfg.maxQueueSize ≤
      (Bulkhead.run cfg events).taskQueue.length := by omega
  unfold Bulkhead.submit
  dsimp only
  rw [if_neg hnoSlot, if_pos hfull]
  exact ⟨rfl, rfl, rfl⟩

/-- Witness for C2: with one slot and one queue place, two submissions
saturate the bulkhead and a third is rejected without being enqueued. -/
theorem C2_bulkhead_bounds_and_queue_full_rejection_witness :
    (Bulkhead.submit Bulkhead.cfgEx 5
        (Bulkhead.run Bulkhead.cfgEx Bulkhead.evsEx)).2 =
      Bulkhead.SubmitResult.rejectedQueueFull ∧
    (Bulkhead.submit Bulkhead.cfgEx 5
        (Bulkhead.run Bulkhead.cfgEx Bulkhead.evsEx)).1.taskQueue =
      (Bulkhead.run Bulkhead.cfgEx Bulkhead.evsEx).taskQueue ∧
    (Bulkhead.submit Bulkhead.cfgEx 5
        (Bulkhead.run Bulkhead.cfgEx Bulkhead.evsEx)).1.runningTasks =
      (Bulkhead.run Bulkhead.cfgEx Bulkhead.evsEx).runningTasks :=
  (C2_bulkhead_bounds_and_queue_full_rejection Bulkhead.cfgEx
      Bulkhead.evsEx).2.2 5 (by decide) (by decide)

/-- C7: in every reachable bulkhead state
`running.size + queue.size ≤ maxConcurrent + maxQueueSize`; no queued task
has the execution-timeout clock armed or a start time (only its
queue-timeout clock runs while it waits), and the execution-timeout clock
is armed exactly at the PENDING→RUNNING transition (`executeTask` stamps
`startedAt := now`, marks the task `RUNNING` and arms the clock). -/
theorem C7_exec_timeout_clock_only_when_running
    (cfg : Bulkhead.Config) (events : List Bulkhead.Event) :
    (Bulkhead.run cfg events).runningTasks.length +
        (Bulkhead.run cfg events).taskQueue.length ≤
      cfg.maxConcurrent + cfg.maxQueueSize ∧
    (∀ t ∈ (Bulkhead.run cfg events).taskQueue,
      t.hasExecTimer = false ∧ t.startedAt = none ∧ t.hasQueueTimer = true) ∧
    (∀ t ∈ (Bulkhead.run cfg events).runningTasks,
      t.hasExecTimer = true ∧ t.status = Bulkhead.TaskStatus.running) ∧
    (∀ (now : Nat) (t : Bulkhead.Task) (s : Bulkhead.BHState),
      (Bulkhead.executeTask now t s).runningTasks =
        { t with status := Bulkhead.TaskStatus.running
                 startedAt := some now
                 hasExecTimer := true } :: s.runningTasks) := by
  obtain ⟨hc, hrun, hq, hqok, hrok⟩ := Bulkhead.Inv_run cfg events
  refine ⟨by omega, ?_, ?_, fun now t s => rfl⟩
  · intro t ht
    obtain ⟨h1, h2, h3, h4⟩ := hqok t ht
    exact ⟨h3, h2, h4⟩
  · intro t ht
    obtain ⟨h1, h2, h3⟩ := hrok t ht
    exact ⟨h2, h1⟩

/-- Witness for C7: after `evsEx` the queued task has only its queue clock
armed and no start time, while the running task's execution clock is
armed; `executeTask` stamps a concrete fresh task at its start time. -/
theorem C7_exec_timeout_clock_only_when_running_witness :
    Bulkhead.queuedEx ∈ (Bulkhead.run Bulkhead.cfgEx Bulkhead.evsEx).taskQueue ∧
    (Bulkhead.queuedEx.hasExecTimer = false ∧
     Bulkhead.queuedEx.startedAt = none ∧
     Bulkhead.queuedEx.hasQueueTimer = true) ∧
    (Bulkhead.executeTask 3 (Bulkhead.createTask 9 3)
        Bulkhead.initState).runningTasks =
      [{ Bulkhead.createTask 9 3 with
           status := Bulkhead.TaskStatus.running
           startedAt := some 3
           hasExecTimer := true }] :=
  have h := C7_exec_timeout_clock_only_when_running Bulkhead.cfgEx
    Bulkhead.evsEx
  ⟨by decide, h.2.1 Bulkhead.queuedEx (by decide),
   h.2.2.2 3 (Bulkhead.createTask 9 3) Bulkhead.initState⟩
